import Mathlib

/-!
Verification of the cosmic-radiation dose calculator (`src/app.py`).

The computational core of the script is embedded shallowly over `ℚ`:
every numeric literal of the source (`5.0e-5`, the attenuation factors,
`1000`, `5.0`) is an exactly representable decimal, and the source applies
only `*` and `/` to them, so rational arithmetic reproduces the
computation exactly.
-/

namespace AstralTrails

/-- `MAX_DAYS = 1000` (src/app.py line 28). -/
def MAX_DAYS : ℕ := 1000

/-- The scale constant `5.0e-5` of the dose model (src/app.py line 88). -/
def SCALE_CONSTANT : ℚ := 5.0e-5

/-- `SHIELD_FACTORS` (src/app.py lines 33-58): the attenuation-factor
catalog, as the ordered association list the Python dict literal builds. -/
def SHIELD_FACTORS : List (String × ℚ) :=
  [ ("None"                       , 1.00)
  , ("Liquid Hydrogen"            , 0.30)
  , ("Lithium Hydride (LiH)"      , 0.35)
  , ("Liquid Methane"             , 0.38)
  , ("Water"                      , 0.40)
  , ("Polyethylene"               , 0.50)
  , ("B-PEI (Boron-PEI 20 wt %)"  , 0.50)
  , ("B-PEI (15 wt %)"            , 0.51)
  , ("B-PEI (10 wt %)"            , 0.53)
  , ("B-PEI (5 wt %)"             , 0.55)
  , ("PTFE (Teflon)"              , 0.60)
  , ("Polyetherimide"             , 0.60)
  , ("B-Polysulfone (10 wt %)"    , 0.60)
  , ("B-Polyimide (10 wt %)"      , 0.62)
  , ("Polysulfone"                , 0.65)
  , ("Aluminum"                   , 0.70)
  , ("Polyimide (Kapton)"         , 0.70)
  , ("Pure Epoxy"                 , 0.70)
  , ("Regolith/Epoxy Composite"   , 0.72)
  , ("Lunar Regolith"             , 0.75)
  , ("Magnesium"                  , 0.78)
  , ("Iron"                       , 0.80)
  , ("Copper"                     , 0.85)
  , ("Lead"                       , 0.95)
  ]

/-- `SHIELD_FACTORS[material]` (src/app.py line 89): Python dict indexing
returns the entry's value when the key is present and raises `KeyError`
(modelled as `none`) when it is absent. -/
def attenuation_of (material : String) : Option ℚ :=
  SHIELD_FACTORS.lookup material

/-- The derived quantities of the dose model (spec's `DoseResult`). -/
structure DoseResult where
  daily_dose_mSv : ℚ
  total_dose_mSv : ℚ
  risk_percent : ℚ
  deriving DecidableEq, Repr

/-- The dose model (src/app.py lines 88-92):
`BASE_DOSE_RATE = proton_flux * 5.0e-5`,
`daily_dose = BASE_DOSE_RATE * attenuation`,
`total_dose = daily_dose * mission_days`,
`risk_percent = (total_dose / 1000) * 5.0`.
The source performs no domain check whatsoever on these lines, so the
function is total; `duration_days` is `ℤ` so that out-of-domain durations
can be evaluated. -/
def compute (flux_value attenuation_factor : ℚ) (duration_days : ℤ) : DoseResult :=
  let BASE_DOSE_RATE := flux_value * SCALE_CONSTANT
  let daily_dose := BASE_DOSE_RATE * attenuation_factor
  let total_dose := daily_dose * (duration_days : ℚ)
  { daily_dose_mSv := daily_dose
  , total_dose_mSv := total_dose
  , risk_percent := (total_dose / 1000) * 5.0 }

/-- `np.arange(1, max_days + 1)` (src/app.py line 104): the integer day
axis `1, 2, ..., max_days`. -/
def days_axis (max_days : ℕ) : List ℕ :=
  List.range' 1 max_days

/-- C-style cast of a rational to an integer (truncation toward zero), as
numpy applies when storing a float fill value in an int64 array. -/
def truncToInt (x : ℚ) : ℤ :=
  if 0 ≤ x then ⌊x⌋ else ⌈x⌉

/-- `np.full_like(days_axis, factor)` (src/app.py line 108): an array of
the same length and dtype as `days_axis` filled with `factor`.
`days_axis` has integer dtype, so the float `factor` is cast to int. -/
def full_like_int (axis : List ℕ) (x : ℚ) : List ℤ :=
  axis.map (fun _ => truncToInt x)

/-- One trace of the shielding-factor chart (src/app.py lines 106-111):
the points `(day, y)` with `x = days_axis` and
`y = np.full_like(days_axis, factor)`. -/
def attenuation_trace (max_days : ℕ) (factor : ℚ) : List (ℕ × ℤ) :=
  (days_axis max_days).zip (full_like_int (days_axis max_days) factor)

/-- The whole shielding-factor chart (src/app.py lines 106-111): one
trace per `SHIELD_FACTORS` entry, from the same catalog used for the
metric lookup. -/
def attenuation_curves (max_days : ℕ) : List (String × List (ℕ × ℤ)) :=
  SHIELD_FACTORS.map (fun p => (p.1, attenuation_trace max_days p.2))

/-- `dose_curve = (BASE_DOSE_RATE * attenuation) * days_axis`
(src/app.py line 125, the binding that is actually used; the line-124
binding is dead, immediately overwritten): cumulative dose at each day of
the axis. -/
def dose_curve (flux_value attenuation_factor : ℚ) (max_days : ℕ) : List ℚ :=
  (days_axis max_days).map
    (fun (d : ℕ) => (flux_value * SCALE_CONSTANT * attenuation_factor) * (d : ℚ))

/-- The canonical 24-entry catalog of spec section 6, transcribed from the
spec's table (left column top to bottom, then right column), for comparing
the code's `SHIELD_FACTORS` against the spec's words. -/
def spec_catalog_section6 : List (String × ℚ) :=
  [ ("None"                       , 1.00)
  , ("Liquid Hydrogen"            , 0.30)
  , ("Lithium Hydride (LiH)"      , 0.35)
  , ("Liquid Methane"             , 0.38)
  , ("Water"                      , 0.40)
  , ("Polyethylene"               , 0.50)
  , ("B-PEI 20 wt%"               , 0.50)
  , ("B-PEI 15 wt%"               , 0.51)
  , ("B-PEI 10 wt%"               , 0.53)
  , ("B-PEI 5 wt%"                , 0.55)
  , ("PTFE (Teflon)"              , 0.60)
  , ("Polyetherimide"             , 0.60)
  , ("Polysulfone"                , 0.65)
  , ("Aluminum"                   , 0.70)
  , ("Polyimide (Kapton)"         , 0.70)
  , ("Pure Epoxy"                 , 0.70)
  , ("Regolith/Epoxy Composite"   , 0.72)
  , ("Lunar Regolith"             , 0.75)
  , ("Magnesium"                  , 0.78)
  , ("Iron"                       , 0.80)
  , ("Copper"                     , 0.85)
  , ("Lead"                       , 0.95)
  , ("B-Polysulfone 10 wt%"       , 0.60)
  , ("B-Polyimide 10 wt%"         , 0.62)
  ]

/-! ## Helper lemmas -/

/-- `List.lookup` on an association list returns `none` exactly when the
key is absent (the `KeyError` side of Python dict indexing). -/
theorem lookup_eq_none_of_not_mem_keys (l : List (String × ℚ)) (a : String)
    (h : a ∉ l.map Prod.fst) : l.lookup a = none := by
  induction l with
  | nil => rfl
  | cons p t ih =>
      obtain ⟨k, b⟩ := p
      simp only [List.map_cons, List.mem_cons] at h
      push_neg at h
      have hb : (a == k) = false := beq_eq_false_iff_ne.mpr h.1
      simp [List.lookup, hb, ih h.2]

/-- On an association list with distinct keys, `List.lookup` returns the
value paired with the key. -/
theorem lookup_eq_some_of_mem (l : List (String × ℚ))
    (hnd : (l.map Prod.fst).Nodup) (a : String) (f : ℚ)
    (h : (a, f) ∈ l) : l.lookup a = some f := by
  induction l with
  | nil => cases h
  | cons p t ih =>
      obtain ⟨k, b⟩ := p
      simp only [List.map_cons, List.nodup_cons] at hnd
      rcases List.mem_cons.1 h with h1 | h2
      · cases h1
        simp [List.lookup]
      · have hak : a ≠ k := by
          intro he
          exact hnd.1 (he ▸ List.mem_map.2 ⟨(a, f), h2, rfl⟩)
        have hb : (a == k) = false := beq_eq_false_iff_ne.mpr hak
        simp [List.lookup, hb, ih hnd.2 h2]

/-- The keys of the code's catalog are pairwise distinct. -/
theorem SHIELD_FACTORS_keys_nodup : (SHIELD_FACTORS.map Prod.fst).Nodup := by
  simp [SHIELD_FACTORS]

/-- Every factor of the code's catalog lies in `(0, 1]`. -/
theorem SHIELD_FACTORS_factor_bounds :
    ∀ p ∈ SHIELD_FACTORS, 0 < p.2 ∧ p.2 ≤ 1 := by
  intro p hp
  simp only [SHIELD_FACTORS, List.mem_cons, List.not_mem_nil, or_false] at hp
  rcases hp with h | h | h | h | h | h | h | h | h | h | h | h | h | h | h |
    h | h | h | h | h | h | h | h | h <;> rw [h] <;> norm_num

/-- The dose chart's value at 0-based index `i` is the cumulative dose for
day `i + 1`. -/
theorem dose_curve_getElem (flux factor : ℚ) (max_days i : ℕ)
    (h : i < max_days) :
    (dose_curve flux factor max_days)[i]? =
      some (flux * SCALE_CONSTANT * factor * ((i + 1 : ℕ) : ℚ)) := by
  rw [dose_curve, List.getElem?_map, days_axis, List.getElem?_range' _ _ h]
  rw [Option.map_some']
  congr 1
  push_cast
  ring

/-- The dose-curve list has one entry per day of the axis. -/
theorem dose_curve_length (flux factor : ℚ) (max_days : ℕ) :
    (dose_curve flux factor max_days).length = max_days := by
  simp [dose_curve, days_axis]

/-! ## Claim theorems -/

/-- C1: for every `flux_value ≥ 0`, every `attenuation_factor ∈ (0,1]`,
and every integer `duration_days ≥ 1`, the dose computation returns
`daily_dose_mSv = flux_value * 5.0e-5 * attenuation_factor`,
`total_dose_mSv = daily_dose_mSv * duration_days` (hence
`total_dose_mSv = flux_value * 5.0e-5 * attenuation_factor * duration_days`),
and `risk_percent = (total_dose_mSv / 1000) * 5.0`, with no rounding
applied internally. -/
theorem C1_dose_model_formula (flux factor : ℚ) (days : ℤ)
    (hf : 0 ≤ flux) (h0 : 0 < factor) (h1 : factor ≤ 1) (hd : 1 ≤ days) :
    (compute flux factor days).daily_dose_mSv = flux * SCALE_CONSTANT * factor ∧
    (compute flux factor days).total_dose_mSv
      = (compute flux factor days).daily_dose_mSv * (days : ℚ) ∧
    (compute flux factor days).total_dose_mSv
      = flux * SCALE_CONSTANT * factor * (days : ℚ) ∧
    (compute flux factor days).risk_percent
      = ((compute flux factor days).total_dose_mSv / 1000) * 5.0 :=
  ⟨rfl, rfl, rfl, rfl⟩

/-- Witness for C1 at `flux = 100`, `factor = 0.50`, `days = 180`. -/
theorem C1_dose_model_formula_witness :
    (0:ℚ) ≤ 100 ∧ (0:ℚ) < 0.50 ∧ (0.50:ℚ) ≤ 1 ∧ (1:ℤ) ≤ 180 ∧
    ((compute 100 0.50 180).daily_dose_mSv = 100 * SCALE_CONSTANT * 0.50 ∧
     (compute 100 0.50 180).total_dose_mSv
       = (compute 100 0.50 180).daily_dose_mSv * ((180:ℤ) : ℚ) ∧
     (compute 100 0.50 180).total_dose_mSv
       = 100 * SCALE_CONSTANT * 0.50 * ((180:ℤ) : ℚ) ∧
     (compute 100 0.50 180).risk_percent
       = ((compute 100 0.50 180).total_dose_mSv / 1000) * 5.0) :=
  ⟨by norm_num, by norm_num, by norm_num, by norm_num,
   C1_dose_model_formula 100 0.50 180
     (by norm_num) (by norm_num) (by norm_num) (by norm_num)⟩

/-- C2, counterexample: the claim says out-of-domain inputs fail with an
`InvalidParameter` error and produce no result; but the source performs no
validation at all on lines 88-92, so the out-of-domain input
`duration_days = 0` is processed by the formula and yields a complete
`DoseResult` (with `total_dose_mSv = 0`), not an error. -/
theorem C2_no_validation_counterexample :
    compute 100 0.50 0 =
      { daily_dose_mSv := 0.0025, total_dose_mSv := 0, risk_percent := 0 } := by
  simp only [compute, SCALE_CONSTANT, DoseResult.mk.injEq]
  norm_num

/-- C2, amended: the dose computation performs no domain validation and
raises no error; for every input, in-domain or not, it totally applies
the linear formula and returns a complete `DoseResult`. (Out-of-domain
durations and unknown materials are prevented upstream by the UI widgets,
not by the computation.) -/
theorem C2_computation_is_total (flux factor : ℚ) (days : ℤ) :
    compute flux factor days =
      { daily_dose_mSv := flux * SCALE_CONSTANT * factor
      , total_dose_mSv := flux * SCALE_CONSTANT * factor * (days : ℚ)
      , risk_percent := flux * SCALE_CONSTANT * factor * (days : ℚ) / 1000 * 5.0 } :=
  rfl

/-- C5: a material identifier not among the catalog keys makes the lookup
fail with no result (Python raises `KeyError`, modelled as `none`); an
identifier in the catalog returns that entry's factor. -/
theorem C5_attenuation_lookup (m : String) :
    (m ∉ SHIELD_FACTORS.map Prod.fst → attenuation_of m = none) ∧
    ∀ f : ℚ, (m, f) ∈ SHIELD_FACTORS → attenuation_of m = some f := by
  constructor
  · exact fun h => lookup_eq_none_of_not_mem_keys _ _ h
  · exact fun f h => lookup_eq_some_of_mem _ SHIELD_FACTORS_keys_nodup _ _ h

/-- Witness for C5 at the absent key `"Unobtainium"` and the present key
`"Polyethylene"`. -/
theorem C5_attenuation_lookup_witness :
    attenuation_of "Unobtainium" = none ∧
    attenuation_of "Polyethylene" = some 0.50 :=
  ⟨(C5_attenuation_lookup "Unobtainium").1 (by simp [SHIELD_FACTORS]),
   (C5_attenuation_lookup "Polyethylene").2 0.50 (by simp [SHIELD_FACTORS])⟩

/-- C7: zero flux yields `daily_dose_mSv = 0`, `total_dose_mSv = 0` and
`risk_percent = 0` for every catalog material and every valid duration. -/
theorem C7_zero_flux (m : String) (factor : ℚ)
    (hm : attenuation_of m = some factor) (days : ℤ) (hd : 1 ≤ days) :
    compute 0 factor days =
      { daily_dose_mSv := 0, total_dose_mSv := 0, risk_percent := 0 } := by
  simp only [compute, DoseResult.mk.injEq]
  norm_num

/-- Witness for C7 at material `"Water"` and `days = 5`. -/
theorem C7_zero_flux_witness :
    attenuation_of "Water" = some 0.40 ∧ (1:ℤ) ≤ 5 ∧
    compute 0 0.40 5 =
      { daily_dose_mSv := 0, total_dose_mSv := 0, risk_percent := 0 } :=
  ⟨by simp [attenuation_of, SHIELD_FACTORS, List.lookup], by norm_num,
   C7_zero_flux "Water" 0.40
     (by simp [attenuation_of, SHIELD_FACTORS, List.lookup]) 5 (by norm_num)⟩

/-- C9: at `flux_value = 100`, material `"Polyethylene"` (factor `0.50`),
`duration_days = 180`, the computation yields `daily_dose_mSv = 0.0025`,
`total_dose_mSv = 0.45` and `risk_percent = 0.00225`. -/
theorem C9_scenario1 :
    attenuation_of "Polyethylene" = some 0.50 ∧
    compute 100 0.50 180 =
      { daily_dose_mSv := 0.0025
      , total_dose_mSv := 0.45
      , risk_percent := 0.00225 } := by
  constructor
  · simp [attenuation_of, SHIELD_FACTORS, List.lookup]
  · simp only [compute, SCALE_CONSTANT, DoseResult.mk.injEq]
    norm_num

/-- C3, failing evaluation: the attenuation curve has the claimed length
(`MAX_DAYS` points) but not the claimed values.  `np.full_like(days_axis,
factor)` inherits the integer dtype of `days_axis`, so the float factor is
truncated to an integer: for `"Polyethylene"` (catalog factor `0.50`,
which is positive) every plotted point is `0`. -/
theorem C3_full_like_truncates_factors :
    attenuation_of "Polyethylene" = some 0.50 ∧
    (attenuation_trace MAX_DAYS 0.50).length = MAX_DAYS ∧
    (attenuation_trace MAX_DAYS 0.50).all (fun p => p.2 == 0) = true ∧
    (0 : ℚ) < 0.50 := by
  refine ⟨by simp [attenuation_of, SHIELD_FACTORS, List.lookup], ?_, ?_, by norm_num⟩
  · simp [attenuation_trace, full_like_int, days_axis]
  · rw [List.all_eq_true]
    intro p hp
    have h2 := (List.of_mem_zip hp).2
    simp only [full_like_int, List.mem_map] at h2
    obtain ⟨a, _, ha⟩ := h2
    have hz : truncToInt 0.50 = 0 := by norm_num [truncToInt]
    simp [← ha, hz]

/-- C4: the dose curve is monotonically non-decreasing in the day, and
strictly increasing whenever `flux_value > 0` and the attenuation factor
is positive. -/
theorem C4_dose_curve_monotone (flux factor : ℚ) (max_days d e : ℕ) (x y : ℚ)
    (hflux : 0 ≤ flux) (hfac : 0 ≤ factor) (hde : d ≤ e)
    (hx : (dose_curve flux factor max_days)[d]? = some x)
    (hy : (dose_curve flux factor max_days)[e]? = some y) :
    x ≤ y ∧ (0 < flux → 0 < factor → d < e → x < y) := by
  have hel : e < max_days := by
    have h1 := (List.getElem?_eq_some_iff.mp hy).1
    rwa [dose_curve_length] at h1
  have hdl : d < max_days := lt_of_le_of_lt hde hel
  have hxv : x = flux * SCALE_CONSTANT * factor * ((d + 1 : ℕ) : ℚ) :=
    Option.some.inj ((dose_curve_getElem flux factor max_days d hdl ▸ hx).symm)
  have hyv : y = flux * SCALE_CONSTANT * factor * ((e + 1 : ℕ) : ℚ) :=
    Option.some.inj ((dose_curve_getElem flux factor max_days e hel ▸ hy).symm)
  have hSC : (0:ℚ) < SCALE_CONSTANT := by norm_num [SCALE_CONSTANT]
  constructor
  · have hcast : ((d + 1 : ℕ) : ℚ) ≤ ((e + 1 : ℕ) : ℚ) :=
      Nat.cast_le.mpr (by omega)
    have hc : 0 ≤ flux * SCALE_CONSTANT * factor :=
      mul_nonneg (mul_nonneg hflux hSC.le) hfac
    rw [hxv, hyv]
    exact mul_le_mul_of_nonneg_left hcast hc
  · intro hf hfa hlt
    have hcast : ((d + 1 : ℕ) : ℚ) < ((e + 1 : ℕ) : ℚ) :=
      Nat.cast_lt.mpr (by omega)
    have hc : 0 < flux * SCALE_CONSTANT * factor :=
      mul_pos (mul_pos hf hSC) hfa
    rw [hxv, hyv]
    exact mul_lt_mul_of_pos_left hcast hc

/-- Witness for C4 at `flux = 100`, `factor = 0.50`, `max_days = 2`,
comparing the points of days 1 and 2. -/
theorem C4_dose_curve_monotone_witness :
    (0.0025 : ℚ) ≤ 0.005 ∧
    ((0:ℚ) < 100 → (0:ℚ) < 0.50 → 0 < 1 → (0.0025 : ℚ) < 0.005) :=
  C4_dose_curve_monotone 100 0.50 2 0 1 0.0025 0.005
    (by norm_num) (by norm_num) (by norm_num)
    (by rw [dose_curve_getElem 100 0.50 2 0 (by norm_num)]
        norm_num [SCALE_CONSTANT])
    (by rw [dose_curve_getElem 100 0.50 2 1 (by norm_num)]
        norm_num [SCALE_CONSTANT])

/-- C6: for non-negative flux, the `"None"` entry (factor `1.0`) yields a
total dose at least that of any catalog material at the same flux and
day. -/
theorem C6_none_gives_max_dose (flux : ℚ) (hflux : 0 ≤ flux) (d : ℕ)
    (m : String) (factor : ℚ) (hm : (m, factor) ∈ SHIELD_FACTORS) :
    attenuation_of "None" = some 1.00 ∧
    (compute flux factor (d : ℤ)).total_dose_mSv ≤
      (compute flux 1.00 (d : ℤ)).total_dose_mSv := by
  refine ⟨by simp [attenuation_of, SHIELD_FACTORS, List.lookup], ?_⟩
  have hb := SHIELD_FACTORS_factor_bounds (m, factor) hm
  have hSC : (0:ℚ) ≤ SCALE_CONSTANT := by norm_num [SCALE_CONSTANT]
  show flux * SCALE_CONSTANT * factor * (((d : ℤ) : ℚ)) ≤
    flux * SCALE_CONSTANT * 1.00 * (((d : ℤ) : ℚ))
  have hd0 : (0:ℚ) ≤ (((d : ℤ) : ℚ)) := by positivity
  have hfac1 : factor ≤ 1.00 := by
    have := hb.2
    norm_num
    exact this
  have key : flux * SCALE_CONSTANT * factor ≤ flux * SCALE_CONSTANT * 1.00 :=
    mul_le_mul_of_nonneg_left hfac1 (mul_nonneg hflux hSC)
  exact mul_le_mul_of_nonneg_right key hd0

/-- Witness for C6 at `flux = 100`, day `7`, material `"Water"`
(factor `0.40`). -/
theorem C6_none_gives_max_dose_witness :
    attenuation_of "None" = some 1.00 ∧
    (compute 100 0.40 ((7:ℕ) : ℤ)).total_dose_mSv ≤
      (compute 100 1.00 ((7:ℕ) : ℤ)).total_dose_mSv :=
  C6_none_gives_max_dose 100 (by norm_num) 7 "Water" 0.40
    (by simp [SHIELD_FACTORS])

/-- C8, counterexample: the spec's section-6 table contains the entry
`("B-PEI 15 wt%", 0.51)`, but that name is not a key of the code's
`SHIELD_FACTORS` (the code spells it `"B-PEI (15 wt %)"`), so the
(name, factor) pairs do not agree entry for entry. -/
theorem C8_catalog_name_counterexample :
    ("B-PEI 15 wt%", (0.51:ℚ)) ∈ spec_catalog_section6 ∧
    "B-PEI 15 wt%" ∉ SHIELD_FACTORS.map Prod.fst ∧
    attenuation_of "B-PEI 15 wt%" = none := by
  refine ⟨by simp [spec_catalog_section6], by simp [SHIELD_FACTORS], ?_⟩
  simp [attenuation_of, SHIELD_FACTORS, List.lookup]

/-- C8, amended: the catalog is a fixed mapping of exactly 24 entries with
pairwise-distinct names, containing the identity entry `"None"` with
factor `1.0`; every factor is a literal constant in `(0,1]`; the multiset
of factors equals that of the spec's section-6 table; and the curve
generation draws one trace per entry of the same `SHIELD_FACTORS` catalog
used by the metric lookup. -/
theorem C8_catalog_amended :
    SHIELD_FACTORS.length = 24 ∧
    attenuation_of "None" = some 1.00 ∧
    (SHIELD_FACTORS.map Prod.fst).Nodup ∧
    (∀ p ∈ SHIELD_FACTORS, 0 < p.2 ∧ p.2 ≤ 1) ∧
    (SHIELD_FACTORS.map Prod.snd).Perm (spec_catalog_section6.map Prod.snd) ∧
    (attenuation_curves MAX_DAYS).map Prod.fst = SHIELD_FACTORS.map Prod.fst := by
  refine ⟨by simp [SHIELD_FACTORS],
    by simp [attenuation_of, SHIELD_FACTORS, List.lookup],
    SHIELD_FACTORS_keys_nodup, SHIELD_FACTORS_factor_bounds, ?_, rfl⟩
  have hcode : SHIELD_FACTORS.map Prod.snd =
      ([1.00, 0.30, 0.35, 0.38, 0.40, 0.50, 0.50, 0.51, 0.53, 0.55,
        0.60, 0.60] : List ℚ) ++
      (([0.60, 0.62] : List ℚ) ++
       ([0.65, 0.70, 0.70, 0.70, 0.72, 0.75, 0.78, 0.80, 0.85, 0.95] : List ℚ)) :=
    rfl
  have hspec : spec_catalog_section6.map Prod.snd =
      ([1.00, 0.30, 0.35, 0.38, 0.40, 0.50, 0.50, 0.51, 0.53, 0.55,
        0.60, 0.60] : List ℚ) ++
      (([0.65, 0.70, 0.70, 0.70, 0.72, 0.75, 0.78, 0.80, 0.85, 0.95] : List ℚ) ++
       ([0.60, 0.62] : List ℚ)) :=
    rfl
  rw [hcode, hspec]
  exact List.Perm.append_left _ List.perm_append_comm

/-- Witness for C8's per-entry bound, instantiated at the catalog entry
`("Water", 0.40)`. -/
theorem C8_catalog_amended_witness :
    (0:ℚ) < 0.40 ∧ (0.40:ℚ) ≤ 1 :=
  C8_catalog_amended.2.2.2.1 ("Water", 0.40) (by simp [SHIELD_FACTORS])

/-- C10: for every day `d` in `1..MAX_DAYS`, the plotted/exported dose
curve's point at day `d` (0-based index `d - 1`) equals the
`total_dose_mSv` figure of the metrics panel and the highlight marker for
`mission_days = d`. -/
theorem C10_chart_metric_consistency (flux factor : ℚ) (d : ℕ)
    (h1 : 1 ≤ d) (h2 : d ≤ MAX_DAYS) :
    (dose_curve flux factor MAX_DAYS)[d - 1]? =
      some ((compute flux factor (d : ℤ)).total_dose_mSv) := by
  rw [dose_curve_getElem flux factor MAX_DAYS (d - 1) (by omega)]
  congr 1
  show flux * SCALE_CONSTANT * factor * ((d - 1 + 1 : ℕ) : ℚ) =
    flux * SCALE_CONSTANT * factor * (((d : ℤ) : ℚ))
  have hd : d - 1 + 1 = d := by omega
  rw [hd]
  push_cast
  ring

/-- Witness for C10 at `flux = 100`, `factor = 0.50`, `d = 3`. -/
theorem C10_chart_metric_consistency_witness :
    (1:ℕ) ≤ 3 ∧ (3:ℕ) ≤ MAX_DAYS ∧
    (dose_curve 100 0.50 MAX_DAYS)[3 - 1]? =
      some ((compute 100 0.50 ((3:ℕ) : ℤ)).total_dose_mSv) :=
  ⟨by norm_num, by norm_num [MAX_DAYS],
   C10_chart_metric_consistency 100 0.50 3 (by norm_num) (by norm_num [MAX_DAYS])⟩

end AstralTrails
